import Mathlib

/-!
Shallow embedding of the core of the `tcp_custom_service` repository:
the 31-byte binary trace-context codec (`src/common/tcp_context_propagation.h`),
the length-prefixed request framing and dispatch of the TCP service host and
client (`src/common/tcp_service_base.h`, `src/api-gateway/tcp_gateway_service.h`),
the gateway route-handler envelope logic, and the message-service business
operations (`src/message-service/tcp_message_service.h`).

Bytes are modelled as `Nat` (values `< 256` where exactness matters);
`std::string` as `String`; `std::map` as an association list kept key-unique by
the update operations; C++ exceptions as `Except String`.
-/

namespace TcpCustom

/-! ## Big-endian byte encodings

`htonl`/`htons` followed by a raw memory copy of the integer emits the bytes in
big-endian order on either endianness, so `SerializeField(result, htonl(v))`
is embedded as appending the big-endian bytes of `v`.  The
`static_cast<uint32_t>` in the length fields truncates mod `2^32`, which the
`%`s below reproduce for arbitrary `Nat` input. -/

/-- Big-endian 4-byte encoding of `n` (the bytes of `htonl((uint32_t) n)`). -/
def u32be (n : Nat) : List Nat :=
  [n / 2 ^ 24 % 256, n / 2 ^ 16 % 256, n / 2 ^ 8 % 256, n % 256]

/-- Big-endian 2-byte encoding of `n` (the bytes of `htons((uint16_t) n)`). -/
def u16be (n : Nat) : List Nat :=
  [n / 2 ^ 8 % 256, n % 256]

/-- Decode via `ntohl` of a 4-byte field read by `DeserializeField<uint32_t>`. -/
def u32beDecode (b0 b1 b2 b3 : Nat) : Nat :=
  ((b0 * 256 + b1) * 256 + b2) * 256 + b3

/-- Decode via `ntohs` of a 2-byte field read by `DeserializeField<uint16_t>`. -/
def u16beDecode (b0 b1 : Nat) : Nat :=
  b0 * 256 + b1

@[simp] theorem length_u32be (n : Nat) : (u32be n).length = 4 := rfl

@[simp] theorem length_u16be (n : Nat) : (u16be n).length = 2 := rfl

theorem u32beDecode_u32be (n : Nat) (h : n < 2 ^ 32) :
    u32beDecode (n / 2 ^ 24 % 256) (n / 2 ^ 16 % 256) (n / 2 ^ 8 % 256) (n % 256) = n := by
  simp only [u32beDecode]
  omega

/-! ## Trace context codec (`src/common/tcp_context_propagation.h`) -/

/-- The constant `TcpTraceContext::MAGIC_NUMBER` = `0x4F544C59` (`'OTLY'`). -/
def MAGIC_NUMBER : Nat := 0x4F544C59

/-- The constant `TcpTraceContext::VERSION` = `0x0001`. -/
def VERSION : Nat := 0x0001

/-- The struct `TcpTraceContext`: `magic:u32`, `version:u16`,
`trace_id[16]`, `span_id[8]`, `trace_flags:u8`. -/
structure TcpTraceContext where
  magic : Nat
  version : Nat
  trace_id : List Nat
  span_id : List Nat
  trace_flags : Nat
deriving DecidableEq, Repr

/-- Wellformedness of a context value: the field widths of the C++ struct. -/
def TcpTraceContext.WF (ctx : TcpTraceContext) : Prop :=
  ctx.magic < 2 ^ 32 ∧ ctx.version < 2 ^ 16 ∧
  ctx.trace_id.length = 16 ∧ ctx.span_id.length = 8 ∧ ctx.trace_flags < 2 ^ 8 ∧
  (∀ b ∈ ctx.trace_id, b < 256) ∧ (∀ b ∈ ctx.span_id, b < 256)

instance (ctx : TcpTraceContext) : Decidable ctx.WF := by
  unfold TcpTraceContext.WF; infer_instance

/-- The default constructor `TcpTraceContext()`: magic and version set, ids and
flags zeroed. -/
def defaultContext : TcpTraceContext :=
  { magic := MAGIC_NUMBER, version := VERSION,
    trace_id := List.replicate 16 0, span_id := List.replicate 8 0,
    trace_flags := 0 }

/-- Predicate `TcpTraceContext::HasValidTraceData`: true iff some `trace_id` byte is
non-zero. -/
def hasValidTraceData (ctx : TcpTraceContext) : Bool :=
  ctx.trace_id.any (fun b => b != 0)

/-- Predicate `TcpTraceContext::IsValid`. -/
def isValid (ctx : TcpTraceContext) : Bool :=
  (ctx.magic == MAGIC_NUMBER) && (decide (ctx.version ≤ VERSION)) && hasValidTraceData ctx

/-- The fixed size `TcpTraceContext::GetSize()` = 31. -/
def contextSize : Nat := 4 + 2 + 16 + 8 + 1

/-- Encoder `TcpTracePropagator::SerializeContext`: magic and version in network byte
order, then `trace_id`, `span_id`, `trace_flags` copied verbatim. -/
def serializeContext (ctx : TcpTraceContext) : List Nat :=
  u32be ctx.magic ++ u16be ctx.version ++ ctx.trace_id ++ ctx.span_id ++ [ctx.trace_flags]

/-- Decoder `TcpTracePropagator::DeserializeContext(data, size)`.  Mirrors the source
statement-for-statement: a default context is built, the size is checked, magic
and version are decoded into it, `ctx.IsValid()` is tested on that partially
filled value, and only then are `trace_id`, `span_id` and `trace_flags` copied
out of the buffer. -/
def deserializeContext (data : List Nat) : TcpTraceContext :=
  let ctx := defaultContext
  if data.length < contextSize then
    ctx
  else
    let ctx := { ctx with
      magic := u32beDecode (data.getD 0 0) (data.getD 1 0) (data.getD 2 0) (data.getD 3 0),
      version := u16beDecode (data.getD 4 0) (data.getD 5 0) }
    if ¬ isValid ctx then
      defaultContext
    else
      { ctx with
        trace_id := (data.drop 6).take 16,
        span_id := (data.drop 22).take 8,
        trace_flags := data.getD 30 0 }

/-- At the point where `DeserializeContext` evaluates `ctx.IsValid()`, only
`magic` and `version` have been read from the buffer; `trace_id` is still the
constructor's zeros, so `HasValidTraceData()` — and hence `IsValid()` — is
false, and the function returns the default context no matter what the input
bytes are. -/
theorem deserializeContext_eq_default (data : List Nat) :
    deserializeContext data = defaultContext := by
  unfold deserializeContext
  split
  · rfl
  · simp [isValid, hasValidTraceData, defaultContext]

/-- A concrete structurally valid context: correct magic, current version, a
non-zero `trace_id`. -/
def sampleContext : TcpTraceContext :=
  { magic := MAGIC_NUMBER, version := VERSION,
    trace_id := 0xAB :: List.replicate 15 0,
    span_id := [1, 2, 3, 4, 5, 6, 7, 8],
    trace_flags := 1 }

/-- C6: `SerializeContext` emits `u32be magic ‖ u16be version ‖ trace_id ‖
span_id ‖ flags`, the raw fields copied verbatim, and (for a context with the
C++ struct's field widths) exactly 31 bytes. -/
theorem serializeContext_layout (ctx : TcpTraceContext) :
    serializeContext ctx =
      u32be ctx.magic ++ u16be ctx.version ++ ctx.trace_id ++ ctx.span_id ++ [ctx.trace_flags] ∧
    (ctx.WF → (serializeContext ctx).length = 31) := by
  refine ⟨rfl, fun h => ?_⟩
  simp [serializeContext, h.2.2.1, h.2.2.2.1]

/-- Witness for `serializeContext_layout` at the concrete `sampleContext`. -/
theorem serializeContext_layout_witness :
    serializeContext sampleContext =
      u32be sampleContext.magic ++ u16be sampleContext.version ++
        sampleContext.trace_id ++ sampleContext.span_id ++ [sampleContext.trace_flags] ∧
    (serializeContext sampleContext).length = 31 :=
  ⟨(serializeContext_layout sampleContext).1,
   (serializeContext_layout sampleContext).2 (by decide)⟩

/-- C1 (code bug): `sampleContext` is a valid trace context (magic correct,
version current, non-zero `trace_id`), yet decoding its 31-byte encoding does
not give it back: the premature `IsValid()` check makes `DeserializeContext`
discard every input. -/
theorem roundtrip_fails_on_valid_context :
    sampleContext.magic = MAGIC_NUMBER ∧ sampleContext.version ≤ VERSION ∧
    hasValidTraceData sampleContext = true ∧ sampleContext.WF ∧
    deserializeContext (serializeContext sampleContext) ≠ sampleContext := by
  decide

/-- A concrete 31-byte wire buffer: correct magic `0x4F544C59`, version `1`, a
non-zero `trace_id`, so none of the three documented rejection conditions
holds. -/
def sampleBuffer : List Nat :=
  [0x4F, 0x54, 0x4C, 0x59, 0x00, 0x01] ++
    (0xAB :: List.replicate 15 0) ++ [1, 2, 3, 4, 5, 6, 7, 8] ++ [1]

/-- C2 (code bug): `sampleBuffer` is 31 bytes with matching magic and a version
not exceeding the codec's, yet `DeserializeContext` still fails on it,
returning the default context with no valid trace data instead of the parsed
one. -/
theorem deserialize_rejects_wellformed_buffer :
    ¬ sampleBuffer.length < 31 ∧
    u32beDecode (sampleBuffer.getD 0 0) (sampleBuffer.getD 1 0)
        (sampleBuffer.getD 2 0) (sampleBuffer.getD 3 0) = MAGIC_NUMBER ∧
    u16beDecode (sampleBuffer.getD 4 0) (sampleBuffer.getD 5 0) ≤ VERSION ∧
    hasValidTraceData (deserializeContext sampleBuffer) = false ∧
    deserializeContext sampleBuffer ≠
      { magic := MAGIC_NUMBER, version := 1,
        trace_id := 0xAB :: List.replicate 15 0,
        span_id := [1, 2, 3, 4, 5, 6, 7, 8], trace_flags := 1 } := by
  decide

/-! ## Request framing

`TcpServiceBase::SendTcpRequest` (src/common/tcp_service_base.h) builds the
request message by successive `insert`s at the end of a byte vector; appending
is the same operation.  The message type travels as the raw bytes of the
`std::string`, the payload as the JSON text's bytes; both are opaque byte
segments here. -/

/-- The request bytes built by `TcpServiceBase::SendTcpRequest`:
`[trace_data_size(4)][trace_data][msg_type_size(4)][msg_type][data_size(4)][data]`. -/
def sendTcpRequestMessage (trace_data msg_type request_data : List Nat) : List Nat :=
  u32be trace_data.length ++ trace_data ++
    u32be msg_type.length ++ msg_type ++
    u32be request_data.length ++ request_data

/-- The request bytes built by `TcpGatewayService::SendTcpRequest`
(src/api-gateway/tcp_gateway_service.h); the body is the same insert sequence
as the service-base client's. -/
def gatewaySendTcpRequestMessage (trace_data msg_type request_data : List Nat) : List Nat :=
  u32be trace_data.length ++ trace_data ++
    u32be msg_type.length ++ msg_type ++
    u32be request_data.length ++ request_data

/-- C5: both RPC clients put on the wire exactly
`u32be len_trace ‖ trace ‖ u32be len_type ‖ type ‖ u32be len_payload ‖ payload`,
and an empty payload is encoded with length 0 and no payload bytes. -/
theorem sendTcpRequest_wire_format (trace_data msg_type request_data : List Nat) :
    sendTcpRequestMessage trace_data msg_type request_data =
      u32be trace_data.length ++ trace_data ++ u32be msg_type.length ++ msg_type ++
        u32be request_data.length ++ request_data ∧
    gatewaySendTcpRequestMessage trace_data msg_type request_data =
      sendTcpRequestMessage trace_data msg_type request_data ∧
    sendTcpRequestMessage trace_data msg_type [] =
      u32be trace_data.length ++ trace_data ++ u32be msg_type.length ++ msg_type ++ u32be 0 :=
  ⟨rfl, rfl, by simp [sendTcpRequestMessage]⟩

/-! ## Frame parsing in `TcpServiceBase::HandleClient`

Each `recv(fd, buf, n, MSG_WAITALL)` either yields the `n` requested bytes or
fewer (peer closed early); the stream is the full byte sequence the client
sends before EOF.  A read of `n` bytes succeeds exactly when `n` bytes
remain. -/

/-- One `recv(..., n, MSG_WAITALL)` against a remaining stream: the `n` bytes
read and the rest, or `none` if the stream is exhausted first. -/
def readBytes (n : Nat) (s : List Nat) : Option (List Nat × List Nat) :=
  if n ≤ s.length then some (s.take n, s.drop n) else none

/-- A 4-byte length field read: `recv` of 4 bytes then `ntohl`. -/
def readU32 (s : List Nat) : Option (Nat × List Nat) :=
  match readBytes 4 s with
  | some (b, rest) =>
      some (u32beDecode (b.getD 0 0) (b.getD 1 0) (b.getD 2 0) (b.getD 3 0), rest)
  | none => none

/-- The six length-prefixed reads of `HandleClient`, in source order: trace
length, trace bytes, type length, type bytes, payload length, payload bytes.
`none` is the path where some read came up short and the connection is closed
with nothing written. -/
def parseRequestFrame (s : List Nat) :
    Option ((List Nat × List Nat × List Nat) × List Nat) := do
  let (trace_size, s) ← readU32 s
  let (trace_data, s) ← readBytes trace_size s
  let (msg_type_size, s) ← readU32 s
  let (msg_type_data, s) ← readBytes msg_type_size s
  let (data_size, s) ← readU32 s
  let (request_data, s) ← readBytes data_size s
  pure ((trace_data, msg_type_data, request_data), s)

/-- What `HandleClient` writes back, as a function of the inbound stream: on
any framing failure nothing (`none`); otherwise the response produced by
dispatch on the decoded type and payload segments.  The dispatch stage is a
parameter so the statement covers every handler table. -/
def handleClientOutput {ρ : Type} (dispatch : List Nat → List Nat → ρ)
    (s : List Nat) : Option ρ :=
  match parseRequestFrame s with
  | none => none
  | some ((_, msg_type_data, request_data), _) =>
      some (dispatch msg_type_data request_data)

theorem readBytes_append (x r : List Nat) (n : Nat) (h : x.length = n) :
    readBytes n (x ++ r) = some (x, r) := by
  subst h
  simp [readBytes, List.take_left, List.drop_left]

theorem readBytes_exact (x : List Nat) : readBytes x.length x = some (x, []) := by
  simp [readBytes]

theorem readU32_append (n : Nat) (h : n < 2 ^ 32) (r : List Nat) :
    readU32 (u32be n ++ r) = some (n, r) := by
  rw [readU32, readBytes_append (u32be n) r 4 rfl]
  show some (u32beDecode ((u32be n).getD 0 0) ((u32be n).getD 1 0)
      ((u32be n).getD 2 0) ((u32be n).getD 3 0), r) = some (n, r)
  have e0 : (u32be n).getD 0 0 = n / 2 ^ 24 % 256 := rfl
  have e1 : (u32be n).getD 1 0 = n / 2 ^ 16 % 256 := rfl
  have e2 : (u32be n).getD 2 0 = n / 2 ^ 8 % 256 := rfl
  have e3 : (u32be n).getD 3 0 = n % 256 := rfl
  rw [e0, e1, e2, e3]
  simp only [u32beDecode]
  have hn : ((n / 2 ^ 24 % 256 * 256 + n / 2 ^ 16 % 256) * 256 + n / 2 ^ 8 % 256) * 256 + n % 256
      = n := by omega
  rw [hn]

/-- A complete well-formed frame parses back to its three segments with
nothing left over. -/
theorem parseRequestFrame_encode (tr ty pl : List Nat)
    (htr : tr.length < 2 ^ 32) (hty : ty.length < 2 ^ 32) (hpl : pl.length < 2 ^ 32) :
    parseRequestFrame (sendTcpRequestMessage tr ty pl) = some ((tr, ty, pl), []) := by
  rw [parseRequestFrame, sendTcpRequestMessage]
  rw [List.append_assoc, List.append_assoc, List.append_assoc, List.append_assoc]
  rw [readU32_append tr.length htr]
  simp only [Option.bind_eq_bind, Option.some_bind]
  rw [readBytes_append tr _ tr.length rfl]
  simp only [Option.some_bind]
  rw [readU32_append ty.length hty]
  simp only [Option.some_bind]
  rw [readBytes_append ty _ ty.length rfl]
  simp only [Option.some_bind]
  rw [readU32_append pl.length hpl]
  simp only [Option.some_bind]
  rw [readBytes_exact pl]
  rfl

theorem readBytes_length {n : Nat} {s a s' : List Nat}
    (h : readBytes n s = some (a, s')) :
    a.length = n ∧ s.length = n + s'.length := by
  rw [readBytes] at h
  split at h
  · cases h
    constructor
    · simpa [List.length_take] using by omega
    · simp [List.length_drop]; omega
  · cases h

theorem readU32_length {s s' : List Nat} {v : Nat}
    (h : readU32 s = some (v, s')) : s.length = 4 + s'.length := by
  rw [readU32] at h
  cases hb : readBytes 4 s with
  | none => rw [hb] at h; cases h
  | some p =>
      rw [hb] at h
      cases h
      exact (readBytes_length hb).2

theorem readBytes_prefix {n : Nat} {s t a s' : List Nat}
    (hp : s <+: t) (h : readBytes n s = some (a, s')) :
    ∃ t', readBytes n t = some (a, t') ∧ s' <+: t' := by
  obtain ⟨u, rfl⟩ := hp
  rw [readBytes] at h
  split at h
  case isTrue hn =>
    cases h
    refine ⟨s.drop n ++ u, ?_, ⟨u, rfl⟩⟩
    rw [readBytes]
    rw [if_pos (by simp; omega)]
    rw [List.take_append_eq_append_take, List.drop_append_eq_append_drop]
    simp [Nat.sub_eq_zero_of_le hn]
  case isFalse => cases h

theorem readU32_prefix {s t s' : List Nat} {v : Nat}
    (hp : s <+: t) (h : readU32 s = some (v, s')) :
    ∃ t', readU32 t = some (v, t') ∧ s' <+: t' := by
  rw [readU32] at h
  cases hb : readBytes 4 s with
  | none => rw [hb] at h; cases h
  | some p =>
      rw [hb] at h
      cases h
      obtain ⟨t', ht', hpre⟩ := readBytes_prefix hp hb
      exact ⟨t', by rw [readU32, ht'], hpre⟩

theorem parseRequestFrame_length {s : List Nat} {a b c rest : List Nat}
    (h : parseRequestFrame s = some ((a, b, c), rest)) :
    s.length = a.length + b.length + c.length + rest.length + 12 := by
  rw [parseRequestFrame] at h
  simp only [Option.bind_eq_bind, Option.bind_eq_some, Option.pure_def,
    Option.some.injEq, Prod.mk.injEq] at h
  obtain ⟨⟨n1, s1⟩, h1, ⟨a1, s2⟩, h2, ⟨n2, s3⟩, h3, ⟨b1, s4⟩, h4,
    ⟨n3, s5⟩, h5, ⟨c1, s6⟩, h6, ⟨⟨ha, hb, hc⟩, hrest⟩⟩ := h
  subst ha hb hc hrest
  dsimp only at h1 h2 h3 h4 h5 h6 ⊢
  have l1 := readU32_length h1
  have l2 := readBytes_length h2
  have l3 := readU32_length h3
  have l4 := readBytes_length h4
  have l5 := readU32_length h5
  have l6 := readBytes_length h6
  omega

theorem parseRequestFrame_prefix {s t : List Nat} {r : List Nat × List Nat × List Nat}
    {rest : List Nat} (hp : s <+: t) (h : parseRequestFrame s = some (r, rest)) :
    ∃ rest', parseRequestFrame t = some (r, rest') ∧ rest <+: rest' := by
  rw [parseRequestFrame] at h
  simp only [Option.bind_eq_bind, Option.bind_eq_some, Option.pure_def,
    Option.some.injEq, Prod.mk.injEq] at h
  obtain ⟨⟨n1, s1⟩, h1, ⟨a1, s2⟩, h2, ⟨n2, s3⟩, h3, ⟨b1, s4⟩, h4,
    ⟨n3, s5⟩, h5, ⟨c1, s6⟩, h6, ⟨hr, hrest⟩⟩ := h
  subst hrest
  obtain ⟨t1, g1, p1⟩ := readU32_prefix hp h1
  obtain ⟨t2, g2, p2⟩ := readBytes_prefix p1 h2
  obtain ⟨t3, g3, p3⟩ := readU32_prefix p2 h3
  obtain ⟨t4, g4, p4⟩ := readBytes_prefix p3 h4
  obtain ⟨t5, g5, p5⟩ := readU32_prefix p4 h5
  obtain ⟨t6, g6, p6⟩ := readBytes_prefix p5 h6
  refine ⟨t6, ?_, p6⟩
  rw [parseRequestFrame]
  rw [g1]
  simp only [Option.bind_eq_bind, Option.some_bind]
  rw [g2]
  simp only [Option.some_bind]
  rw [g3]
  simp only [Option.some_bind]
  rw [g4]
  simp only [Option.some_bind]
  rw [g5]
  simp only [Option.some_bind]
  rw [g6]
  simp only [Option.some_bind, Option.pure_def, Option.some.injEq, Prod.mk.injEq]
  exact ⟨hr, trivial⟩

/-- C4: if the inbound stream is a strict prefix of a full request frame — the
peer hung up in the middle of a segment or a length field, so some
`MSG_WAITALL` read yields fewer bytes than declared — `HandleClient` closes
the connection without writing any response bytes, whatever the handler table
does. -/
theorem handleClient_silent_on_truncated_frame {ρ : Type}
    (dispatch : List Nat → List Nat → ρ) (tr ty pl s : List Nat)
    (htr : tr.length < 2 ^ 32) (hty : ty.length < 2 ^ 32) (hpl : pl.length < 2 ^ 32)
    (hpre : s <+: sendTcpRequestMessage tr ty pl)
    (hne : s ≠ sendTcpRequestMessage tr ty pl) :
    handleClientOutput dispatch s = none := by
  rw [handleClientOutput]
  cases hparse : parseRequestFrame s with
  | none => rfl
  | some pr =>
      obtain ⟨r, rest⟩ := pr
      obtain ⟨rest', hfull, hrpre⟩ := parseRequestFrame_prefix hpre hparse
      rw [parseRequestFrame_encode tr ty pl htr hty hpl] at hfull
      obtain ⟨hr, hrest'⟩ := by
        have := hfull
        simp only [Option.some.injEq, Prod.mk.injEq] at this
        exact this
      subst hr
      rw [← hrest'] at hrpre
      have hrest : rest = [] := List.prefix_nil.mp hrpre
      subst hrest
      have hs := parseRequestFrame_length hparse
      have hF : (sendTcpRequestMessage tr ty pl).length =
          tr.length + ty.length + pl.length + 12 := by
        simp [sendTcpRequestMessage]; omega
      have hlen : s.length = (sendTcpRequestMessage tr ty pl).length := by
        simp at hs
        omega
      exact absurd (List.IsPrefix.eq_of_length hpre hlen) hne

/-- Witness for `handleClient_silent_on_truncated_frame`: the stream breaks
off inside the type-length field of a frame for trace `[9]`, type `[65]`,
payload `[7]`, and nothing is written back. -/
theorem handleClient_silent_witness :
    handleClientOutput (fun _ _ => (0 : Nat)) [0, 0, 0, 1, 9, 0, 0] = none :=
  handleClient_silent_on_truncated_frame (fun _ _ => 0) [9] [65] [7]
    [0, 0, 0, 1, 9, 0, 0] (by decide) (by decide) (by decide)
    ⟨[0, 1, 65, 0, 0, 0, 1, 7], by decide⟩ (by decide)

/-! ## Handler dispatch (`TcpServiceBase::HandleClient`, lines 331-359)

A registered handler deserializes the JSON payload, runs the business
function, and serializes the result; any C++ exception escaping it is caught
in `HandleClient` and carries a `what()` text — embedded as
`Except String`.  The `handlers_` `std::map` is an association list kept
key-unique by `registerHandler`. -/

/-- The type-erased handler stored in `handlers_`: payload bytes to response
bytes, or a thrown exception's message. -/
def Handler : Type := List Nat → Except String (List Nat)

/-- What `HandleClient` sends back once a frame is decoded: either a handler's
response bytes verbatim, or the dump of a synthesized
`{"success": ..., "message": ...}` object. -/
inductive HostResponse where
  | raw (bytes : List Nat)
  | envelope (success : Bool) (message : String)
deriving DecidableEq, Repr

/-- Registration `RegisterHandler`: `handlers_[message_type] = fn` — replaces an existing
entry or appends a new one (`std::map::operator[]`). -/
def registerHandler (handlers : List (String × Handler)) (message_type : String)
    (fn : Handler) : List (String × Handler) :=
  match handlers with
  | [] => [(message_type, fn)]
  | (k, v) :: rest =>
      if k = message_type then (k, fn) :: rest
      else (k, v) :: registerHandler rest message_type fn

/-- Lookup `handlers_.find(message_type)` on the association list. -/
def lookupHandler (handlers : List (String × Handler)) (message_type : String) :
    Option Handler :=
  match handlers with
  | [] => none
  | (k, v) :: rest => if k = message_type then some v else lookupHandler rest message_type

/-- The dispatch stage of `HandleClient`: the registered handler's output is
the response; a caught handler exception or a missing registration synthesizes
`{"success": false, "message": ...}`, the unknown-type text being
`"未知消息类型: " + message_type`. -/
def handleRequest (handlers : List (String × Handler)) (message_type : String)
    (request_data : List Nat) : HostResponse :=
  match lookupHandler handlers message_type with
  | some handler =>
      match handler request_data with
      | .ok response_data => .raw response_data
      | .error e => .envelope false e
  | none => .envelope false ("未知消息类型: " ++ message_type)

/-- C3 counterexample: with no handler registered for `"C"`, the synthesized
message is the source's `"未知消息类型: C"`, not the claim's literal
`"unknown message type: C"`. -/
theorem handleRequest_unknown_text_differs :
    (lookupHandler [] "C").isNone = true ∧
    handleRequest [] "C" [] ≠ HostResponse.envelope false "unknown message type: C" := by
  constructor
  · rfl
  · intro h
    have : ("未知消息类型: C" : String) = "unknown message type: C" :=
      HostResponse.envelope.inj h |>.2
    exact absurd this (by decide)

/-- C3 (amended): dispatch invokes exactly the handler registered for the
frame's message type — its `.ok` bytes become the response, its thrown message
becomes `{success:false, message:<error text>}` — and an unregistered type
yields `{success:false, message:"未知消息类型: <type>"}` without invoking any
handler. -/
theorem handleRequest_dispatch (handlers : List (String × Handler))
    (message_type : String) (request_data : List Nat) :
    (∀ h : Handler, lookupHandler handlers message_type = some h →
      (∀ out, h request_data = .ok out →
        handleRequest handlers message_type request_data = .raw out) ∧
      (∀ e, h request_data = .error e →
        handleRequest handlers message_type request_data = .envelope false e)) ∧
    (lookupHandler handlers message_type = none →
      handleRequest handlers message_type request_data =
        .envelope false ("未知消息类型: " ++ message_type)) := by
  constructor
  · intro h hfound
    constructor
    · intro out hok
      simp only [handleRequest, hfound, hok]
    · intro e herr
      simp only [handleRequest, hfound, herr]
  · intro hnone
    simp only [handleRequest, hnone]

/-- Handler registered for `"A"` in the witness table: succeeds with `[65]`. -/
def handlerA : Handler := fun _ => .ok [65]

/-- Handler registered for `"B"` in the witness table: always throws. -/
def handlerB : Handler := fun _ => .error "boom"

/-- The witness handler table with `"A"` and `"B"` registered. -/
def witnessHandlers : List (String × Handler) :=
  registerHandler (registerHandler [] "A" handlerA) "B" handlerB

/-- Witness for `handleRequest_dispatch`: a request for `"A"` gets `"A"`'s
output, a request for `"B"` gets `"B"`'s error envelope, and a request for
`"C"` gets the unknown-type envelope. -/
theorem handleRequest_dispatch_witness :
    handleRequest witnessHandlers "A" [] = .raw [65] ∧
    handleRequest witnessHandlers "B" [] = .envelope false "boom" ∧
    handleRequest witnessHandlers "C" [] = .envelope false ("未知消息类型: " ++ "C") :=
  ⟨((handleRequest_dispatch witnessHandlers "A" []).1 handlerA rfl).1 [65] rfl,
   ((handleRequest_dispatch witnessHandlers "B" []).1 handlerB rfl).2 "boom" rfl,
   (handleRequest_dispatch witnessHandlers "C" []).2 rfl⟩

/-! ## Gateway route handlers (`TcpGatewayService::CreateTcpHandler` /
`CreateTcpGetHandler`)

Both templates share one `try`/`catch` shape: build the request (POST: JSON
body parse; GET: request-builder closure), call `SendTcpRequest`, set the
serialized response with status 200; any `std::exception` — connect failure,
framing/decode failure in the client, extractor failure — lands in the `catch`
that sets `{success:false, message:e.what()}` with status 500.  Exceptions are
`Except String`; the extraction step and the RPC call are the two fallible
stages. -/

/-- The HTTP body the gateway sets: the JSON dump of the backend's response
object, or of the synthesized error object. -/
inductive HttpBody (β : Type) where
  | payload (response : β)
  | envelope (success : Bool) (message : String)
deriving DecidableEq, Repr

/-- One run of a route handler produced by `CreateTcpHandler` or
`CreateTcpGetHandler`: `extract` is the request-building step, `call` the
`SendTcpRequest` invocation against the backend.  Returns the HTTP status and
body set on `res`. -/
def runTcpHandler {α β : Type} (extract : Except String α)
    (call : α → Except String β) : Nat × HttpBody β :=
  match extract with
  | .error e => (500, .envelope false e)
  | .ok request =>
      match call request with
      | .ok response => (200, .payload response)
      | .error e => (500, .envelope false e)

/-- C7: when extraction and the backend RPC both succeed the gateway replies
200 with the JSON-encoded RPC response; when either throws — unreachable
backend included — it replies 500 with `{success:false, message:<text>}`. -/
theorem runTcpHandler_status {α β : Type} (extract : Except String α)
    (call : α → Except String β) :
    (∀ r resp, extract = .ok r → call r = .ok resp →
      runTcpHandler extract call = (200, .payload resp)) ∧
    (∀ e, extract = .error e →
      runTcpHandler extract call = (500, .envelope false e)) ∧
    (∀ r e, extract = .ok r → call r = .error e →
      runTcpHandler extract call = (500, .envelope false e)) := by
  refine ⟨fun r resp hr hresp => ?_, fun e he => ?_, fun r e hr he => ?_⟩
  · simp only [runTcpHandler, hr, hresp]
  · simp only [runTcpHandler, he]
  · simp only [runTcpHandler, hr, he]

/-- Witness for `runTcpHandler_status`: a succeeding route gives
`(200, payload)`, an extractor failure and a connect failure give
`(500, envelope)`. -/
theorem runTcpHandler_status_witness :
    runTcpHandler (α := Nat) (β := Nat) (.ok 1) (fun n => .ok (n + 1)) =
      (200, .payload 2) ∧
    runTcpHandler (α := Nat) (β := Nat) (.error "无效的用户ID") (fun n => .ok n) =
      (500, .envelope false "无效的用户ID") ∧
    runTcpHandler (α := Nat) (β := Nat) (.ok 1) (fun _ => .error "连接服务失败") =
      (500, .envelope false "连接服务失败") :=
  ⟨(runTcpHandler_status (.ok 1) (fun n => .ok (n + 1))).1 1 2 rfl rfl,
   (runTcpHandler_status (.error "无效的用户ID") (fun n => .ok n)).2.1 "无效的用户ID" rfl,
   (runTcpHandler_status (.ok 1) (fun _ => .error "连接服务失败")).2.2 1 "连接服务失败" rfl rfl⟩

/-! ## Message service (`src/message-service/tcp_message_service.h`)

The three `std::map` members are association lists; `operator[]`-then-mutate
is get-or-default followed by a key-unique update.  `ValidateUser` performs an
RPC against the user service and folds every failure to `false`, so it enters
the model as a boolean oracle; the generated UUID and the wall-clock timestamp
enter as parameters. -/

/-- Lookup `map.find(k)` on an association list. -/
def assocFind {κ ν : Type} [DecidableEq κ] (m : List (κ × ν)) (k : κ) : Option ν :=
  match m with
  | [] => none
  | (k', v) :: rest => if k' = k then some v else assocFind rest k

/-- Update `map[k] = v`: replace the entry for `k`, or append one. -/
def assocSet {κ ν : Type} [DecidableEq κ] (m : List (κ × ν)) (k : κ) (v : ν) :
    List (κ × ν) :=
  match m with
  | [] => [(k, v)]
  | (k', v') :: rest => if k' = k then (k', v) :: rest else (k', v') :: assocSet rest k v

/-- Read of `map[k]` with the value type's default (as `operator[]` default-constructs). -/
def assocGetD {κ ν : Type} [DecidableEq κ] (m : List (κ × ν)) (k : κ) (d : ν) : ν :=
  (assocFind m k).getD d

/-- Append `map[k].push_back(id)` on a `std::map<K, std::vector<std::string>>`. -/
def pushId {κ : Type} [DecidableEq κ] (m : List (κ × List String)) (k : κ)
    (id : String) : List (κ × List String) :=
  assocSet m k (assocGetD m k [] ++ [id])

/-- The pair `(std::min(a, b), std::max(a, b))` on `std::string`, as the conversation
key is built (`std::min(a,b)` is `b < a ? b : a`, `std::max(a,b)` is
`a < b ? b : a`). -/
def conversationKey (a b : String) : String × String :=
  (if b < a then b else a, if a < b then b else a)

/-- Struct `chat::models::Message`. -/
structure Message where
  message_id : String
  sender_id : String
  receiver_id : String
  content : String
  message_type : String
  is_read : Bool
  timestamp : Int
deriving DecidableEq, Repr

/-- Struct `chat::models::SendMessageRequest`. -/
structure SendMessageRequest where
  sender_id : String
  receiver_id : String
  content : String
  message_type : String
deriving DecidableEq, Repr

/-- Struct `chat::models::SendMessageResponse`.  On failure paths the source leaves
`message_id` default-empty and `timestamp` uninitialized; the model uses `0`
there and no theorem depends on it. -/
structure SendMessageResponse where
  success : Bool
  message : String
  message_id : String
  timestamp : Int
deriving DecidableEq, Repr

/-- Struct `chat::models::GetMessagesRequest` (`limit` is `int32_t`). -/
structure GetMessagesRequest where
  user_id : String
  other_user_id : String
  limit : Int
  before_timestamp : Int
deriving DecidableEq, Repr

/-- Struct `chat::models::GetMessagesResponse`.  `has_more` is never assigned by the
source (uninitialized); the model uses `false` and no theorem depends on it. -/
structure GetMessagesResponse where
  success : Bool
  message : String
  messages : List Message
  has_more : Bool
  total_count : Int
deriving DecidableEq, Repr

/-- Struct `chat::models::MarkMessageReadRequest`. -/
structure MarkMessageReadRequest where
  user_id : String
  message_id : String
deriving DecidableEq, Repr

/-- Struct `chat::models::MarkMessageReadResponse`. -/
structure MarkMessageReadResponse where
  success : Bool
  message : String
deriving DecidableEq, Repr

/-- The in-memory state of `TcpMessageService`: `messages_by_id_`,
`messages_by_user_`, `messages_by_conversation_`. -/
structure MessageStore where
  messages_by_id : List (String × Message)
  messages_by_user : List (String × List String)
  messages_by_conversation : List ((String × String) × List String)
deriving DecidableEq, Repr

/-- Operation `TcpMessageService::SendMessage`.  `validateUser` is the `ValidateUser`
RPC oracle, `newId` the generated UUID, `now` the wall-clock millisecond
timestamp. -/
def sendMessage (validateUser : String → Bool) (newId : String) (now : Int)
    (store : MessageStore) (request : SendMessageRequest) :
    SendMessageResponse × MessageStore :=
  if ¬ validateUser request.sender_id then
    ({ success := false, message := "发送者不存在", message_id := "", timestamp := 0 }, store)
  else if ¬ validateUser request.receiver_id then
    ({ success := false, message := "接收者不存在", message_id := "", timestamp := 0 }, store)
  else
    -- `message.message_type` is never assigned by the source; it stays the
    -- default-constructed empty string.
    let message : Message :=
      { message_id := newId, sender_id := request.sender_id,
        receiver_id := request.receiver_id, content := request.content,
        message_type := "", is_read := false, timestamp := now }
    let key := conversationKey request.sender_id request.receiver_id
    ({ success := true, message := "消息发送成功", message_id := newId, timestamp := now },
     { messages_by_id := assocSet store.messages_by_id newId message,
       messages_by_user :=
         pushId (pushId store.messages_by_user request.sender_id newId)
           request.receiver_id newId,
       messages_by_conversation :=
         assocSet store.messages_by_conversation key
           (assocGetD store.messages_by_conversation key [] ++ [newId]) })

/-- Operation `TcpMessageService::MarkMessageRead`. -/
def markMessageRead (store : MessageStore) (request : MarkMessageReadRequest) :
    MarkMessageReadResponse × MessageStore :=
  match assocFind store.messages_by_id request.message_id with
  | none => ({ success := false, message := "消息不存在" }, store)
  | some message =>
      if message.receiver_id ≠ request.user_id then
        ({ success := false, message := "无权限标记此消息" }, store)
      else
        let updated := assocSet store.messages_by_id request.message_id
          { message with is_read := true }
        ({ success := true, message := "消息已标记为已读" },
         { store with messages_by_id := updated })

/-- The ids `GetMessages` collects: the conversation index when
`other_user_id` is non-empty, else the per-user index; a missing index entry
leaves the vector empty. -/
def matchedMessageIds (store : MessageStore) (request : GetMessagesRequest) :
    List String :=
  if request.other_user_id ≠ "" then
    assocGetD store.messages_by_conversation
      (conversationKey request.user_id request.other_user_id) []
  else
    assocGetD store.messages_by_user request.user_id []

/-- The comparator passed to `std::sort`: newest first. -/
def msgNewerFirst (a b : Message) : Bool :=
  decide (b.timestamp ≤ a.timestamp)

/-- Operation `TcpMessageService::GetMessages`.  `std::sort` leaves the order of equal
timestamps unspecified; merge sort with the same comparator is one
implementation of it. -/
def getMessages (validateUser : String → Bool) (store : MessageStore)
    (request : GetMessagesRequest) : GetMessagesResponse :=
  if ¬ validateUser request.user_id then
    { success := false, message := "用户不存在", messages := [],
      has_more := false, total_count := 0 }
  else
    let messages := (matchedMessageIds store request).filterMap
      (fun id => assocFind store.messages_by_id id)
    let sorted := messages.mergeSort msgNewerFirst
    let final :=
      if 0 < request.limit ∧ request.limit < (sorted.length : Int) then
        sorted.take request.limit.toNat
      else sorted
    { success := true, message := "", messages := final,
      has_more := false, total_count := (final.length : Int) }

/-- C8: when the user service reports no user for the receiver (and the
sender validated, as in the end-to-end scenario), `SendMessage` answers
`success:false` with the receiver-not-found text and returns before touching
any of the three maps: no record, no per-user entry, no conversation entry. -/
theorem sendMessage_receiver_missing (validateUser : String → Bool) (newId : String)
    (now : Int) (store : MessageStore) (request : SendMessageRequest)
    (hs : validateUser request.sender_id = true)
    (hr : validateUser request.receiver_id = false) :
    (sendMessage validateUser newId now store request).1.success = false ∧
    (sendMessage validateUser newId now store request).1.message = "接收者不存在" ∧
    (sendMessage validateUser newId now store request).2 = store := by
  simp [sendMessage, hs, hr]

/-- Witness for `sendMessage_receiver_missing`: sending from `"alice"` to the
non-existent `"ghost"` fails with the receiver-not-found text and leaves the
empty store empty. -/
theorem sendMessage_receiver_missing_witness :
    (sendMessage (fun u => u == "alice") "m1" 7 ⟨[], [], []⟩
        ⟨"alice", "ghost", "hi", ""⟩).1.success = false ∧
    (sendMessage (fun u => u == "alice") "m1" 7 ⟨[], [], []⟩
        ⟨"alice", "ghost", "hi", ""⟩).1.message = "接收者不存在" ∧
    (sendMessage (fun u => u == "alice") "m1" 7 ⟨[], [], []⟩
        ⟨"alice", "ghost", "hi", ""⟩).2 = ⟨[], [], []⟩ :=
  sendMessage_receiver_missing (fun u => u == "alice") "m1" 7 ⟨[], [], []⟩
    ⟨"alice", "ghost", "hi", ""⟩ (by decide) (by decide)

/-- C9: `MarkMessageRead` flips `is_read` only for the message's receiver.
For an existing message whose receiver is not the requester it answers
`success:false` and returns the store unchanged; for the receiver it rewrites
exactly that entry with `is_read := true`. -/
theorem markMessageRead_receiver_only (store : MessageStore)
    (request : MarkMessageReadRequest) :
    (∀ m, assocFind store.messages_by_id request.message_id = some m →
      m.receiver_id ≠ request.user_id →
        (markMessageRead store request).1.success = false ∧
        (markMessageRead store request).2 = store) ∧
    (∀ m, assocFind store.messages_by_id request.message_id = some m →
      m.receiver_id = request.user_id →
        (markMessageRead store request).1.success = true ∧
        (markMessageRead store request).2 =
          { store with messages_by_id :=
              (assocSet store.messages_by_id request.message_id
                { m with is_read := true }) }) := by
  constructor
  · intro m hfind hne
    simp only [markMessageRead, hfind]
    rw [if_pos hne]
    exact ⟨rfl, rfl⟩
  · intro m hfind heq
    simp only [markMessageRead, hfind]
    rw [if_neg (by simp [heq])]
    exact ⟨rfl, rfl⟩

/-- A concrete store holding one unread message addressed to `"bob"`. -/
def witnessMessage : Message :=
  { message_id := "m1", sender_id := "alice", receiver_id := "bob",
    content := "hi", message_type := "", is_read := false, timestamp := 7 }

/-- Store for the mark-read witness. -/
def witnessReadStore : MessageStore :=
  { messages_by_id := [("m1", witnessMessage)],
    messages_by_user := [("alice", ["m1"]), ("bob", ["m1"])],
    messages_by_conversation := [(("alice", "bob"), ["m1"])] }

/-- Witness for `markMessageRead_receiver_only`: `"carol"` cannot mark
`"bob"`'s message and the store is untouched; `"bob"` can, and exactly the
record's `is_read` flips. -/
theorem markMessageRead_receiver_only_witness :
    ((markMessageRead witnessReadStore ⟨"carol", "m1"⟩).1.success = false ∧
      (markMessageRead witnessReadStore ⟨"carol", "m1"⟩).2 = witnessReadStore) ∧
    ((markMessageRead witnessReadStore ⟨"bob", "m1"⟩).1.success = true ∧
      (markMessageRead witnessReadStore ⟨"bob", "m1"⟩).2 =
        { witnessReadStore with messages_by_id :=
            (assocSet witnessReadStore.messages_by_id "m1"
              { witnessMessage with is_read := true }) }) :=
  ⟨(markMessageRead_receiver_only witnessReadStore ⟨"carol", "m1"⟩).1 witnessMessage
      rfl (by decide),
   (markMessageRead_receiver_only witnessReadStore ⟨"bob", "m1"⟩).2 witnessMessage
      rfl rfl⟩

/-- C10: for a validated user, `GetMessages` returns the matching messages
newest-first (pairwise descending timestamps), truncates to `limit` entries
when `limit > 0`, and reports `total_count` as the number of messages actually
returned after truncation. -/
theorem getMessages_sorted_limit (validateUser : String → Bool)
    (store : MessageStore) (request : GetMessagesRequest)
    (hv : validateUser request.user_id = true) :
    (getMessages validateUser store request).success = true ∧
    (getMessages validateUser store request).messages.Pairwise
      (fun a b => b.timestamp ≤ a.timestamp) ∧
    (0 < request.limit →
      ((getMessages validateUser store request).messages.length : Int) ≤ request.limit) ∧
    (getMessages validateUser store request).total_count =
      ((getMessages validateUser store request).messages.length : Int) := by
  have htrans : ∀ a b c : Message, msgNewerFirst a b → msgNewerFirst b c →
      msgNewerFirst a c := by
    intro a b c hab hbc
    simp only [msgNewerFirst, decide_eq_true_eq] at *
    omega
  have htotal : ∀ a b : Message, msgNewerFirst a b || msgNewerFirst b a := by
    intro a b
    simp only [msgNewerFirst, Bool.or_eq_true, decide_eq_true_eq]
    omega
  simp only [getMessages, hv, Bool.true_eq_false, not_true_eq_false, if_false,
    Bool.not_eq_true]
  set messages := (matchedMessageIds store request).filterMap
    (fun id => assocFind store.messages_by_id id) with hmsgs
  have hsorted : (messages.mergeSort msgNewerFirst).Pairwise
      (fun a b => b.timestamp ≤ a.timestamp) := by
    refine (List.sorted_mergeSort htrans htotal messages).imp ?_
    intro a b h
    simpa [msgNewerFirst] using h
  refine ⟨trivial, ?_, ?_, trivial⟩
  · split
    · exact List.Pairwise.sublist (List.take_sublist _ _) hsorted
    · exact hsorted
  · intro hlim
    split
    case isTrue hcond =>
      simp only [List.length_take]
      omega
    case isFalse hcond =>
      rw [not_and, not_lt] at hcond
      exact hcond hlim

/-- A second message for the get-messages witness store, older than
`witnessMessage`. -/
def witnessMessage2 : Message :=
  { message_id := "m2", sender_id := "bob", receiver_id := "alice",
    content := "yo", message_type := "", is_read := false, timestamp := 3 }

/-- Store for the get-messages witness: two messages indexed for `"alice"`,
stored oldest-first so sorting has work to do. -/
def witnessGetStore : MessageStore :=
  { messages_by_id := [("m2", witnessMessage2), ("m1", witnessMessage)],
    messages_by_user := [("alice", ["m2", "m1"])],
    messages_by_conversation := [(("alice", "bob"), ["m2", "m1"])] }

/-- Witness for `getMessages_sorted_limit`: `"alice"` lists her messages with
`limit = 1`; the reply is sorted newest-first, holds at most one message, and
`total_count` counts the returned list. -/
theorem getMessages_sorted_limit_witness :
    (getMessages (fun _ => true) witnessGetStore ⟨"alice", "", 1, 0⟩).success = true ∧
    (getMessages (fun _ => true) witnessGetStore ⟨"alice", "", 1, 0⟩).messages.Pairwise
      (fun a b => b.timestamp ≤ a.timestamp) ∧
    ((getMessages (fun _ => true) witnessGetStore ⟨"alice", "", 1, 0⟩).messages.length :
      Int) ≤ 1 ∧
    (getMessages (fun _ => true) witnessGetStore ⟨"alice", "", 1, 0⟩).total_count =
      ((getMessages (fun _ => true) witnessGetStore ⟨"alice", "", 1, 0⟩).messages.length :
        Int) :=
  ⟨(getMessages_sorted_limit (fun _ => true) witnessGetStore ⟨"alice", "", 1, 0⟩ rfl).1,
   (getMessages_sorted_limit (fun _ => true) witnessGetStore ⟨"alice", "", 1, 0⟩ rfl).2.1,
   (getMessages_sorted_limit (fun _ => true) witnessGetStore ⟨"alice", "", 1, 0⟩ rfl).2.2.1
     (by decide),
   (getMessages_sorted_limit (fun _ => true) witnessGetStore ⟨"alice", "", 1, 0⟩ rfl).2.2.2⟩

end TcpCustom
